import Mathlib

/-!
Verification of the dual-channel throttle plausibility, calibration and
unit-conversion code of the SRE-2 vehicle control unit.

The embedding follows the C source closely:

* `sensors.h` declares `struct _Sensor` whose numeric fields are all of the
  unsigned 16-bit type `ubyte2`; they are modelled as `Nat` (the code only
  compares and copies them, so no wrap-around arithmetic occurs).
* The global instances `Sensor_TPS0 = { 0, 0.5, 4.5 }` and
  `Sensor_TPS1 = { 0, 4.5, 0.5 }` initialise `ubyte2` fields with the float
  literals 0.5 and 4.5; C truncates these conversions, so the stored spec
  bounds are TPS0: (0, 4) and TPS1: (4, 0).  Remaining fields are
  zero-initialised (objects of static storage duration).
* `float4` values are modelled by `F`: either a finite rational or one of the
  IEEE special values produced by division by zero (`+inf`, `-inf`, `NaN`).
  Rounding is not modelled; every quantity the claims touch is a small
  integer or an exact quotient.  Comparisons against `NaN` are `false`,
  as in IEEE-754.
* The timed polling loop of `calibrateTPS` is modelled by the finite list of
  successive `(TPS0.sensorValue, TPS1.sensorValue)` pairs the loop reads
  while it runs; the `secondsToRunCalibration` argument only determines how
  long the loop spins and is abstracted by the length of that list.
-/

/-- IEEE-style extended value standing for the C `float4` / `double` types:
a finite rational, an infinity, or NaN.  The special values matter because
`getPercent` divides by a calibration span that can be zero. -/
inductive F where
  | fin (q : ℚ)
  | posInf
  | negInf
  | nan
deriving DecidableEq

/-- IEEE subtraction on `F` (exact on finite values). -/
def F.sub : F → F → F
  | .nan, _ => .nan
  | _, .nan => .nan
  | .fin a, .fin b => .fin (a - b)
  | .fin _, .posInf => .negInf
  | .fin _, .negInf => .posInf
  | .posInf, .fin _ => .posInf
  | .posInf, .negInf => .posInf
  | .posInf, .posInf => .nan
  | .negInf, .fin _ => .negInf
  | .negInf, .posInf => .negInf
  | .negInf, .negInf => .nan

/-- IEEE addition on `F` (exact on finite values). -/
def F.add : F → F → F
  | .nan, _ => .nan
  | _, .nan => .nan
  | .fin a, .fin b => .fin (a + b)
  | .fin _, .posInf => .posInf
  | .fin _, .negInf => .negInf
  | .posInf, .fin _ => .posInf
  | .posInf, .posInf => .posInf
  | .posInf, .negInf => .nan
  | .negInf, .fin _ => .negInf
  | .negInf, .negInf => .negInf
  | .negInf, .posInf => .nan

/-- IEEE division on `F`: a nonzero finite value divided by zero yields a
signed infinity, `0 / 0` yields NaN (`ℚ` has no signed zero, so the zero
divisor counts as `+0`). -/
def F.div : F → F → F
  | .nan, _ => .nan
  | _, .nan => .nan
  | .fin a, .fin b =>
      if b = 0 then (if a = 0 then .nan else if 0 < a then .posInf else .negInf)
      else .fin (a / b)
  | .fin _, .posInf => .fin 0
  | .fin _, .negInf => .fin 0
  | .posInf, .fin b => if b < 0 then .negInf else .posInf
  | .negInf, .fin b => if b < 0 then .posInf else .negInf
  | .posInf, .posInf => .nan
  | .posInf, .negInf => .nan
  | .negInf, .posInf => .nan
  | .negInf, .negInf => .nan

/-- IEEE strict-less-than on `F`; any comparison involving NaN is `false`. -/
def F.lt : F → F → Bool
  | .nan, _ => false
  | _, .nan => false
  | .fin a, .fin b => decide (a < b)
  | .fin _, .posInf => true
  | .fin _, .negInf => false
  | .posInf, _ => false
  | .negInf, .posInf => true
  | .negInf, .negInf => false
  | .negInf, .fin _ => true

/-- IEEE strict-greater-than on `F`. -/
def F.gt (a b : F) : Bool := F.lt b a

/-- C `fabs` lifted to `F`. -/
def fabs : F → F
  | .fin a => .fin |a|
  | .posInf => .posInf
  | .negInf => .posInf
  | .nan => .nan

/-- `struct _Sensor` from sensors.h, fields in declaration order.  The
numeric fields are of the unsigned 16-bit C type `ubyte2`, modelled as `Nat`
(the code only compares and copies them, so no wrap-around occurs). -/
structure Sensor where
  canMessageIdOffset : Nat
  specMin : Nat
  specMax : Nat
  isCalibrated : Bool
  calibMin : Nat
  calibMax : Nat
  calibNormal : Nat
  sensorValue : Nat
  fresh : Bool
  calibratedValue : Nat
deriving DecidableEq

/-- `Sensor Sensor_TPS0 = { 0, 0.5, 4.5 };` — the float initialisers are
truncated into the `ubyte2` fields, giving specMin = 0 and specMax = 4;
all remaining fields are zero-initialised. -/
def Sensor_TPS0 : Sensor := ⟨0, 0, 4, false, 0, 0, 0, 0, false, 0⟩

/-- `Sensor Sensor_TPS1 = { 0, 4.5, 0.5 };` — truncation gives specMin = 4
and specMax = 0 (the initialisers are also in inverted order); all remaining
fields are zero-initialised. -/
def Sensor_TPS1 : Sensor := ⟨0, 4, 0, false, 0, 0, 0, 0, false, 0⟩

/-- `getPercent` from the source: the raw fraction
`(value - min) / (max - min)`, clamped to `[0, 1]` only when
`zeroToOneOnly` is TRUE.  There is no check on the span `max - min`. -/
def getPercent (value min max : F) (zeroToOneOnly : Bool) : F :=
  let retVal := F.div (F.sub value min) (F.sub max min)
  if zeroToOneOnly = true then
    if F.gt retVal (F.fin 1) then F.fin 1
    else if F.lt retVal (F.fin 0) then F.fin 0
    else retVal
  else retVal

/-- Modelled from the spec, section 4.1 (refinement target, not source code):
the spec requires `normalize` to treat a zero calibration span as a defined
"invalid calibration span" error (`none`) instead of dividing.  The source
function `getPercent` contains no such check; claim C3 compares the two. -/
def normalizeSpec (value mn mx : ℚ) (zeroToOneOnly : Bool) : Option ℚ :=
  if mx - mn = 0 then none
  else
    let r := (value - mn) / (mx - mn)
    some (if zeroToOneOnly then (if 1 < r then 1 else if r < 0 then 0 else r) else r)

/-- The local `TPS0PedalPercent` of `GetThrottlePosition`:
`getPercent(Sensor_TPS0.sensorValue, Sensor_TPS0.calibMin,
Sensor_TPS0.calibMax, FALSE)`, as a function of the TPS0 channel state. -/
def TPS0PedalPercent (s0 : Sensor) : F :=
  getPercent (F.fin (s0.sensorValue : ℚ)) (F.fin (s0.calibMin : ℚ))
    (F.fin (s0.calibMax : ℚ)) false

/-- The local `TPS1PedalPercent` of `GetThrottlePosition`, as a function of
the TPS1 channel state. -/
def TPS1PedalPercent (s1 : Sensor) : F :=
  getPercent (F.fin (s1.sensorValue : ℚ)) (F.fin (s1.calibMin : ℚ))
    (F.fin (s1.calibMax : ℚ)) false

/-- The error counter accumulated by `GetThrottlePosition`, one increment per
detected fault, in source order: TPS0 out of spec range, TPS1 out of spec
range, normalized discrepancy above 0.1, either channel uncalibrated. -/
def TPSErrorState (s0 s1 : Sensor) : ℕ :=
  (if s0.sensorValue < s0.specMin ∨ s0.sensorValue > s0.specMax then 1 else 0) +
  (if s1.sensorValue < s1.specMin ∨ s1.sensorValue > s1.specMax then 1 else 0) +
  (if F.gt (fabs (F.sub (TPS1PedalPercent s1) (TPS0PedalPercent s0))) (F.fin (1/10))
     then 1 else 0) +
  (if s0.isCalibrated = false ∨ s1.isCalibrated = false then 1 else 0)

/-- `GetThrottlePosition` from the source, as a function of the two global
TPS channel states it reads: the fail-safe 0 when any error was counted,
otherwise the mean of the two (unclamped) pedal percents. -/
def GetThrottlePosition (s0 s1 : Sensor) : F :=
  if TPSErrorState s0 s1 > 0 then F.fin 0
  else F.div (F.add (TPS0PedalPercent s0) (TPS1PedalPercent s1)) (F.fin 2)

/-- One iteration of the `calibrateTPS` recording loop for one channel:
lower `calibMin` / raise `calibMax` to the freshly observed sample. -/
def calibUpdate (s : Sensor) (v : Nat) : Sensor :=
  let s1 := if v < s.calibMin then { s with calibMin := v } else s
  if v > s1.calibMax then { s1 with calibMax := v } else s1

/-- The `calibrateTPS` while-loop over the list of successive
`(TPS0.sensorValue, TPS1.sensorValue)` pairs observed while it runs. -/
def calibLoop : Sensor → Sensor → List (Nat × Nat) → Sensor × Sensor
  | s0, s1, [] => (s0, s1)
  | s0, s1, (v0, v1) :: rest => calibLoop (calibUpdate s0 v0) (calibUpdate s1 v1) rest

/-- `calibrateTPS` from the source: reset both channels' calibration bounds
to the inverse of their spec bounds and clear `isCalibrated`, run the
recording loop over the observed samples, then set `isCalibrated` on both
channels (the source performs no validity check before doing so — the check
is a TODO comment). -/
def calibrateTPS (s0 s1 : Sensor) (samples : List (Nat × Nat)) : Sensor × Sensor :=
  let r0 := { s0 with calibMin := s0.specMax, calibMax := s0.specMin, isCalibrated := false }
  let r1 := { s1 with calibMin := s1.specMax, calibMax := s1.specMin, isCalibrated := false }
  let p := calibLoop r0 r1 samples
  ({ p.1 with isCalibrated := true }, { p.2 with isCalibrated := true })

/-- `#define NUM_BUMPS 16` — wheel-speed pulses per rotation. -/
def NUM_BUMPS : ℚ := 16

/-- `#define WHEEL_DIAMETER 18` — wheel diameter in inches. -/
def WHEEL_DIAMETER : ℚ := 18

/-- `freq_to_rpm` from the source: `(freq / NUM_BUMPS_D) * 60.0`. -/
def freq_to_rpm (freq : ℚ) : ℚ := freq / NUM_BUMPS * 60

/-- `rpm_to_mph` from the source:
`(3.14159265 * WHEEL_DIAMETER_D * rpm * 60.0) / 63360.0`. -/
def rpm_to_mph (rpm : ℚ) : ℚ := 3.14159265 * WHEEL_DIAMETER * rpm * 60 / 63360

/-- A TPS0 channel state reachable in the program: spec bounds (0, 4) as
instantiated, calibration range (1, 3) as committed by a run whose samples
ranged over 1..3, calibrated, with the in-spec sample 4 deposited. -/
def tpsOverCalib : Sensor := ⟨0, 0, 4, true, 1, 3, 0, 4, true, 0⟩

/-- A mid-travel calibrated channel state: spec bounds (0, 4), calibration
range (1, 3), calibrated, sample 2 (normalizing to 1/2). -/
def tpsMid : Sensor := ⟨0, 0, 4, true, 1, 3, 0, 2, true, 0⟩

/-!  Helper lemmas shared by the claim theorems. -/

/-- If any error was counted, `GetThrottlePosition` returns the fail-safe 0. -/
lemma getThrottle_of_err {s0 s1 : Sensor} (h : 0 < TPSErrorState s0 s1) :
    GetThrottlePosition s0 s1 = F.fin 0 := by
  unfold GetThrottlePosition
  rw [if_pos h]

/-- If no error was counted, `GetThrottlePosition` returns the mean of the
two pedal percents. -/
lemma getThrottle_of_noerr {s0 s1 : Sensor} (h : TPSErrorState s0 s1 = 0) :
    GetThrottlePosition s0 s1
      = F.div (F.add (TPS0PedalPercent s0) (TPS1PedalPercent s1)) (F.fin 2) := by
  unfold GetThrottlePosition
  rw [h]
  rfl

/-- Each fault condition makes the error counter positive. -/
lemma errState_pos (s0 s1 : Sensor)
    (h : (s0.sensorValue < s0.specMin ∨ s0.sensorValue > s0.specMax)
       ∨ (s1.sensorValue < s1.specMin ∨ s1.sensorValue > s1.specMax)
       ∨ F.gt (fabs (F.sub (TPS1PedalPercent s1) (TPS0PedalPercent s0))) (F.fin (1/10))
           = true
       ∨ (s0.isCalibrated = false ∨ s1.isCalibrated = false)) :
    0 < TPSErrorState s0 s1 := by
  unfold TPSErrorState
  rcases h with h | h | h | h <;> simp only [h, if_pos, if_true] <;>
    split_ifs <;> omega

/-- Claim C1: any detected fault — an out-of-range sample on either channel,
a normalized discrepancy above the 0.10 tolerance, or an uncalibrated
channel — forces `GetThrottlePosition` to the fail-safe value 0, however
many channels are individually valid. -/
theorem C1_any_fault_returns_failsafe (s0 s1 : Sensor)
    (h : (s0.sensorValue < s0.specMin ∨ s0.sensorValue > s0.specMax)
       ∨ (s1.sensorValue < s1.specMin ∨ s1.sensorValue > s1.specMax)
       ∨ F.gt (fabs (F.sub (TPS1PedalPercent s1) (TPS0PedalPercent s0))) (F.fin (1/10))
           = true
       ∨ (s0.isCalibrated = false ∨ s1.isCalibrated = false)) :
    GetThrottlePosition s0 s1 = F.fin 0 :=
  getThrottle_of_err (errState_pos s0 s1 h)

/-- Witness for C1 at a concrete input: TPS0 carries the out-of-spec sample
5 (spec range 0..4), so the result is the fail-safe 0. -/
theorem C1_any_fault_returns_failsafe_witness :
    GetThrottlePosition ⟨0, 0, 4, true, 1, 3, 0, 5, false, 0⟩
      ⟨0, 4, 0, true, 1, 3, 0, 2, false, 0⟩ = F.fin 0 :=
  C1_any_fault_returns_failsafe _ _ (Or.inl (Or.inr (by decide)))

/-- Counterexample to claim C2: a calibration run that observes only the
constant sample 2 on both channels commits a degenerate calibration
(`calibMax = calibMin`), yet `isCalibrated` is set to `true` anyway — the
source performs no sanity check before committing (the check is only a TODO
comment), and no fault is raised. -/
theorem counterexample_C2_unconditional_commit :
    (calibrateTPS Sensor_TPS0 Sensor_TPS1 [(2, 2), (2, 2)]).1.isCalibrated = true
    ∧ (calibrateTPS Sensor_TPS0 Sensor_TPS1 [(2, 2), (2, 2)]).1.calibMax
        ≤ (calibrateTPS Sensor_TPS0 Sensor_TPS1 [(2, 2), (2, 2)]).1.calibMin := by
  decide

/-- Claim C2 amended: `calibrateTPS` performs no sanity check at commit
time; it sets `isCalibrated` to `true` on both channels unconditionally,
whatever samples were observed, and raises no fault. -/
theorem C2_amended_commit_unconditional (s0 s1 : Sensor) (samples : List (Nat × Nat)) :
    (calibrateTPS s0 s1 samples).1.isCalibrated = true
    ∧ (calibrateTPS s0 s1 samples).2.isCalibrated = true :=
  ⟨rfl, rfl⟩

/-- Counterexample to claim C3: with a zero calibration span, `getPercent`
performs the division anyway and produces IEEE `+inf` — it does not report
an "invalid calibration span" error as the spec-modelled `normalizeSpec`
(which returns `none` here) requires; the source has no error path at all. -/
theorem counterexample_C3_division_performed :
    getPercent (F.fin 1) (F.fin 0) (F.fin 0) false = F.posInf
    ∧ normalizeSpec 1 0 0 false = none := by
  constructor
  · norm_num [getPercent, F.sub, F.div]
  · norm_num [normalizeSpec]

/-- Claim C3 amended: `getPercent` performs the division unconditionally;
on a zero span `max - min` it yields IEEE `+inf` when the value exceeds the
bound, `-inf` when it is below it, and NaN when they coincide, instead of
reporting an error. -/
theorem C3_amended_zero_span_nonfinite (v mn : ℚ) :
    getPercent (F.fin v) (F.fin mn) (F.fin mn) false
      = (if v = mn then F.nan else if mn < v then F.posInf else F.negInf) := by
  unfold getPercent
  simp only [F.sub, F.div, sub_self, sub_eq_zero, sub_pos, Bool.false_eq_true, if_false,
    reduceIte]

/-- Claim C4 is violated by the code: the instantiation
`Sensor_TPS1 = { 0, 4.5, 0.5 }` stores, after C truncation into the
`Nat` fields, specMin = 4 and specMax = 0, so the invariant
`spec_min < spec_max` fails for the TPS1 channel from startup onward. -/
theorem C4_tps1_spec_bounds_inverted :
    Sensor_TPS1.specMin = 4 ∧ Sensor_TPS1.specMax = 0
    ∧ ¬ (Sensor_TPS1.specMin < Sensor_TPS1.specMax) := by
  decide

/-- Claim C5: with TPS1's instantiated (truncated) spec constants
specMin = 4, specMax = 0, the range check
`sensorValue < specMin || sensorValue > specMax` holds for every sample
value, so `GetThrottlePosition` returns the fail-safe 0 for every input and
the trusted-mean path is unreachable. -/
theorem C5_trusted_mean_unreachable (s0 s1 : Sensor)
    (h1 : s1.specMin = Sensor_TPS1.specMin) (h2 : s1.specMax = Sensor_TPS1.specMax) :
    (s1.sensorValue < s1.specMin ∨ s1.sensorValue > s1.specMax)
    ∧ GetThrottlePosition s0 s1 = F.fin 0 := by
  have hspec1 : s1.specMin = 4 := h1
  have hspec2 : s1.specMax = 0 := h2
  have hr : s1.sensorValue < s1.specMin ∨ s1.sensorValue > s1.specMax := by omega
  exact ⟨hr, getThrottle_of_err (errState_pos s0 s1 (Or.inr (Or.inl hr)))⟩

/-- Witness for C5 at the concrete startup states of the two TPS globals. -/
theorem C5_trusted_mean_unreachable_witness :
    (Sensor_TPS1.sensorValue < Sensor_TPS1.specMin
      ∨ Sensor_TPS1.sensorValue > Sensor_TPS1.specMax)
    ∧ GetThrottlePosition Sensor_TPS0 Sensor_TPS1 = F.fin 0 :=
  C5_trusted_mean_unreachable Sensor_TPS0 Sensor_TPS1 rfl rfl

/-- Counterexample to claim C6: `GetThrottlePosition` computes each channel
fraction with `zeroToOneOnly = FALSE`, so the fraction is not clamped.  At a
reachable TPS0 state — spec bounds (0, 4) as instantiated, calibration range
(1, 3) as committed by a run whose samples stayed within 1..3, and the
in-spec sample 4 — the computed fraction is 3/2, outside [0, 1], refuting
the clause that each fraction is a bounded (clamped) 0-1 normalization. -/
theorem counterexample_C6_unclamped_fraction :
    (tpsOverCalib.specMin ≤ tpsOverCalib.sensorValue
      ∧ tpsOverCalib.sensorValue ≤ tpsOverCalib.specMax)
    ∧ TPS0PedalPercent tpsOverCalib = F.fin (3/2)
    ∧ ¬ ((3 : ℚ)/2 ≤ 1) := by
  refine ⟨by decide, ?_, by norm_num⟩
  norm_num [tpsOverCalib, TPS0PedalPercent, getPercent, F.sub, F.div]

/-- Claim C6 amended: the fractions are computed with `zeroToOneOnly` FALSE,
so they are not clamped and can leave [0, 1]; whenever both channel
fractions are finite and lie in [0, 1] and no fault is counted, the
returned value is their mean and lies in [0, 1]. -/
theorem C6_amended_mean_bounded (s0 s1 : Sensor) (q0 q1 : ℚ)
    (h0 : TPS0PedalPercent s0 = F.fin q0) (h1 : TPS1PedalPercent s1 = F.fin q1)
    (hq00 : 0 ≤ q0) (hq01 : q0 ≤ 1) (hq10 : 0 ≤ q1) (hq11 : q1 ≤ 1)
    (herr : TPSErrorState s0 s1 = 0) :
    GetThrottlePosition s0 s1 = F.fin ((q0 + q1) / 2)
    ∧ 0 ≤ (q0 + q1) / 2 ∧ (q0 + q1) / 2 ≤ 1 := by
  refine ⟨?_, by linarith, by linarith⟩
  rw [getThrottle_of_noerr herr, h0, h1]
  norm_num [F.add, F.div]

/-- Witness for the amended C6 at the concrete mid-travel state: both
fractions are 1/2 and the result is their mean 1/2. -/
theorem C6_amended_mean_bounded_witness :
    GetThrottlePosition tpsMid tpsMid = F.fin (((1:ℚ)/2 + 1/2) / 2)
    ∧ 0 ≤ ((1:ℚ)/2 + 1/2) / 2 ∧ ((1:ℚ)/2 + 1/2) / 2 ≤ 1 :=
  C6_amended_mean_bounded tpsMid tpsMid (1/2) (1/2)
    (by norm_num [tpsMid, TPS0PedalPercent, getPercent, F.sub, F.div])
    (by norm_num [tpsMid, TPS1PedalPercent, getPercent, F.sub, F.div])
    (by norm_num) (by norm_num) (by norm_num) (by norm_num)
    (by norm_num [TPSErrorState, tpsMid, TPS0PedalPercent, TPS1PedalPercent, getPercent,
      F.sub, F.div, F.gt, F.lt, fabs])

/-- Claim C7: if both channels are calibrated, both samples are within their
spec ranges, and the code's discrepancy test does not fire (the normalized
fractions differ by at most 0.1), then no fault is counted and
`GetThrottlePosition` returns the arithmetic mean of the two per-channel
fractions. -/
theorem C7_no_fault_returns_mean (s0 s1 : Sensor)
    (hr0 : ¬ (s0.sensorValue < s0.specMin ∨ s0.sensorValue > s0.specMax))
    (hr1 : ¬ (s1.sensorValue < s1.specMin ∨ s1.sensorValue > s1.specMax))
    (hc0 : s0.isCalibrated = true) (hc1 : s1.isCalibrated = true)
    (hd : F.gt (fabs (F.sub (TPS1PedalPercent s1) (TPS0PedalPercent s0))) (F.fin (1/10))
        = false) :
    TPSErrorState s0 s1 = 0
    ∧ GetThrottlePosition s0 s1
        = F.div (F.add (TPS0PedalPercent s0) (TPS1PedalPercent s1)) (F.fin 2) := by
  have h0 : TPSErrorState s0 s1 = 0 := by
    unfold TPSErrorState
    rw [if_neg hr0, if_neg hr1, hd]
    simp [hc0, hc1]
  exact ⟨h0, getThrottle_of_noerr h0⟩

/-- Witness for C7 at the concrete mid-travel state on both channels. -/
theorem C7_no_fault_returns_mean_witness :
    TPSErrorState tpsMid tpsMid = 0
    ∧ GetThrottlePosition tpsMid tpsMid
        = F.div (F.add (TPS0PedalPercent tpsMid) (TPS1PedalPercent tpsMid)) (F.fin 2) :=
  C7_no_fault_returns_mean tpsMid tpsMid (by decide) (by decide) rfl rfl
    (by norm_num [tpsMid, TPS0PedalPercent, TPS1PedalPercent, getPercent, F.sub, F.div,
      F.gt, F.lt, fabs])

/-- `calibUpdate` lowers `calibMin` to the observed sample. -/
lemma calibUpdate_calibMin (s : Sensor) (v : Nat) :
    (calibUpdate s v).calibMin = min s.calibMin v := by
  simp only [calibUpdate]
  split_ifs <;> simp_all <;> omega

/-- `calibUpdate` raises `calibMax` to the observed sample. -/
lemma calibUpdate_calibMax (s : Sensor) (v : Nat) :
    (calibUpdate s v).calibMax = max s.calibMax v := by
  simp only [calibUpdate]
  split_ifs <;> simp_all <;> omega

/-- The recording loop folds `min` over the first-channel samples. -/
lemma calibLoop_fst_calibMin (tr : List (Nat × Nat)) : ∀ s0 s1 : Sensor,
    (calibLoop s0 s1 tr).1.calibMin = tr.foldl (fun a p => min a p.1) s0.calibMin := by
  induction tr with
  | nil => intro s0 s1; rfl
  | cons hd tl ih =>
    intro s0 s1
    obtain ⟨v0, v1⟩ := hd
    simp only [calibLoop, List.foldl_cons, ih, calibUpdate_calibMin]

/-- The recording loop folds `max` over the first-channel samples. -/
lemma calibLoop_fst_calibMax (tr : List (Nat × Nat)) : ∀ s0 s1 : Sensor,
    (calibLoop s0 s1 tr).1.calibMax = tr.foldl (fun a p => max a p.1) s0.calibMax := by
  induction tr with
  | nil => intro s0 s1; rfl
  | cons hd tl ih =>
    intro s0 s1
    obtain ⟨v0, v1⟩ := hd
    simp only [calibLoop, List.foldl_cons, ih, calibUpdate_calibMax]

/-- The recording loop folds `min` over the second-channel samples. -/
lemma calibLoop_snd_calibMin (tr : List (Nat × Nat)) : ∀ s0 s1 : Sensor,
    (calibLoop s0 s1 tr).2.calibMin = tr.foldl (fun a p => min a p.2) s1.calibMin := by
  induction tr with
  | nil => intro s0 s1; rfl
  | cons hd tl ih =>
    intro s0 s1
    obtain ⟨v0, v1⟩ := hd
    simp only [calibLoop, List.foldl_cons, ih, calibUpdate_calibMin]

/-- The recording loop folds `max` over the second-channel samples. -/
lemma calibLoop_snd_calibMax (tr : List (Nat × Nat)) : ∀ s0 s1 : Sensor,
    (calibLoop s0 s1 tr).2.calibMax = tr.foldl (fun a p => max a p.2) s1.calibMax := by
  induction tr with
  | nil => intro s0 s1; rfl
  | cons hd tl ih =>
    intro s0 s1
    obtain ⟨v0, v1⟩ := hd
    simp only [calibLoop, List.foldl_cons, ih, calibUpdate_calibMax]

/-- Counterexample to claim C8's numeric example: the calibration fields are
`ubyte2` integers, so a run can never observe the fractional sample values
0.5 or 4.5; a run whose samples sweep the whole representable spec range
0..4 commits the integers calibMin = 0 and calibMax = 4 — not 0.5 and
4.5. -/
theorem counterexample_C8_integer_sweep :
    (calibrateTPS Sensor_TPS0 Sensor_TPS1
        [(0, 0), (1, 1), (2, 2), (3, 3), (4, 4)]).1.calibMin = 0
    ∧ (calibrateTPS Sensor_TPS0 Sensor_TPS1
        [(0, 0), (1, 1), (2, 2), (3, 3), (4, 4)]).1.calibMax = 4
    ∧ (calibrateTPS Sensor_TPS0 Sensor_TPS1
        [(0, 0), (1, 1), (2, 2), (3, 3), (4, 4)]).1.isCalibrated = true
    ∧ (((calibrateTPS Sensor_TPS0 Sensor_TPS1
        [(0, 0), (1, 1), (2, 2), (3, 3), (4, 4)]).1.calibMin : ℚ) ≠ 1/2)
    ∧ (((calibrateTPS Sensor_TPS0 Sensor_TPS1
        [(0, 0), (1, 1), (2, 2), (3, 3), (4, 4)]).1.calibMax : ℚ) ≠ 9/2) := by
  have h1 : (calibrateTPS Sensor_TPS0 Sensor_TPS1
      [(0, 0), (1, 1), (2, 2), (3, 3), (4, 4)]).1.calibMin = 0 := by decide
  have h2 : (calibrateTPS Sensor_TPS0 Sensor_TPS1
      [(0, 0), (1, 1), (2, 2), (3, 3), (4, 4)]).1.calibMax = 4 := by decide
  refine ⟨h1, h2, by decide, ?_, ?_⟩
  · rw [h1]; norm_num
  · rw [h2]; norm_num

/-- Claim C8 amended: `calibrateTPS` resets each channel's `calibMin` to its
`specMax` and `calibMax` to its `specMin` and clears `isCalibrated`, then
accumulates `calibMin = min(calibMin, sample)` and
`calibMax = max(calibMax, sample)` over every observed sample, and finally
sets `isCalibrated` (unconditionally); the committed bounds are therefore
the fold of `min`/`max` over the integer samples, starting from the
inverted spec bounds. -/
theorem C8_amended_reset_fold_commit (s0 s1 : Sensor) (samples : List (Nat × Nat)) :
    (calibrateTPS s0 s1 samples).1.calibMin
        = samples.foldl (fun a p => min a p.1) s0.specMax
    ∧ (calibrateTPS s0 s1 samples).1.calibMax
        = samples.foldl (fun a p => max a p.1) s0.specMin
    ∧ (calibrateTPS s0 s1 samples).2.calibMin
        = samples.foldl (fun a p => min a p.2) s1.specMax
    ∧ (calibrateTPS s0 s1 samples).2.calibMax
        = samples.foldl (fun a p => max a p.2) s1.specMin
    ∧ (calibrateTPS s0 s1 samples).1.isCalibrated = true
    ∧ (calibrateTPS s0 s1 samples).2.isCalibrated = true := by
  unfold calibrateTPS
  simp [calibLoop_fst_calibMin, calibLoop_fst_calibMax, calibLoop_snd_calibMin,
    calibLoop_snd_calibMax]

/-- Claim C9: for `min < max` and values in `[min, max]`, the bounded
normalization (`getPercent` with `zeroToOneOnly` TRUE) is the exact fraction
`(v - min) / (max - min)`, lies in [0, 1], and is monotone increasing in the
value. -/
theorem C9_normalize_bounded_monotone (v w mn mx : ℚ) (hspan : mn < mx)
    (hv0 : mn ≤ v) (hv1 : v ≤ mx) (hw0 : mn ≤ w) (hw1 : w ≤ mx) (hvw : v ≤ w) :
    getPercent (F.fin v) (F.fin mn) (F.fin mx) true = F.fin ((v - mn) / (mx - mn))
    ∧ 0 ≤ (v - mn) / (mx - mn) ∧ (v - mn) / (mx - mn) ≤ 1
    ∧ (v - mn) / (mx - mn) ≤ (w - mn) / (mx - mn) := by
  have hpos : (0:ℚ) < mx - mn := by linarith
  have hne : mx - mn ≠ 0 := ne_of_gt hpos
  have hq0 : 0 ≤ (v - mn) / (mx - mn) := div_nonneg (by linarith) hpos.le
  have hq1 : (v - mn) / (mx - mn) ≤ 1 := by
    rw [div_le_one hpos]; linarith
  refine ⟨?_, hq0, hq1, ?_⟩
  · unfold getPercent
    simp only [F.sub, F.div, if_neg hne, F.gt, F.lt, reduceIte, decide_eq_true_eq]
    rw [if_neg (not_lt.mpr hq1), if_neg (not_lt.mpr hq0)]
  · gcongr

/-- Witness for C9 at min = 0, max = 4, values 1 and 3. -/
theorem C9_normalize_bounded_monotone_witness :
    getPercent (F.fin 1) (F.fin 0) (F.fin 4) true = F.fin (((1:ℚ) - 0) / (4 - 0))
    ∧ 0 ≤ ((1:ℚ) - 0) / (4 - 0) ∧ ((1:ℚ) - 0) / (4 - 0) ≤ 1
    ∧ ((1:ℚ) - 0) / (4 - 0) ≤ ((3:ℚ) - 0) / (4 - 0) :=
  C9_normalize_bounded_monotone 1 3 0 4 (by norm_num) (by norm_num) (by norm_num)
    (by norm_num) (by norm_num) (by norm_num)

/-- Claim C10: the unit-conversion utilities are the pure arithmetic
functions of the source — `freq_to_rpm` divides the pulse frequency by the
constant 16 pulses per rotation and multiplies by 60, and `rpm_to_mph`
multiplies the code's pi literal by the constant 18-inch wheel diameter, the
rotation rate and 60 and divides by 63360 inches per mile; in particular
`freq_to_rpm 16 = 60` exactly. -/
theorem C10_unit_conversions :
    NUM_BUMPS = 16 ∧ WHEEL_DIAMETER = 18
    ∧ (∀ freq : ℚ, freq_to_rpm freq = freq / 16 * 60)
    ∧ (∀ rpm : ℚ, rpm_to_mph rpm = 3.14159265 * 18 * rpm * 60 / 63360)
    ∧ freq_to_rpm 16 = 60 := by
  refine ⟨rfl, rfl, fun freq => rfl, fun rpm => rfl, ?_⟩
  norm_num [freq_to_rpm, NUM_BUMPS]
